import Mathlib

/-!
Verification of the GlobalGrants grant-management backend.

This file is a shallow embedding of the backend's storage layer
(`DatabaseStorage` in the server storage module), its route handlers
(`registerRoutes` in the server routes module) and its seed bootstrap
(`initializeCountries` / `initializeGrants`), together with theorems
settling the specification's claims about them.

Modelling conventions:
* Database tables are Lean lists of records; an SQL `INSERT ... RETURNING`
  appends to the list.  Generated ids (`gen_random_uuid()`) are passed in as
  explicit parameters.  Nullable columns are `Option` fields.
* `decimal(12,2)` amounts are rationals; status and category enums are the
  literal strings stored in the database.
* Timestamps set by column defaults (`createdAt`, `submittedAt`, ...) and
  the `ORDER BY` clauses of read queries are omitted: no claim under
  consideration concerns creation times or result ordering.
* `Math.random()` is modelled by passing the drawn value in as an explicit
  rational parameter.
* SQL `ILIKE` is modelled by an executable `LIKE`-pattern matcher over
  lowercased character lists (`%` matches any sequence, `_` any one
  character, `\` escapes the following character).
-/

namespace GlobalGrants

/-- Row of the `users` table; only the columns the modelled logic reads are
kept (`profileImageUrl`, `country`, `phone` and the timestamps are never
consulted by any claim). -/
structure User where
  id : String
  email : Option String
  firstName : Option String
  lastName : Option String
deriving DecidableEq

/-- Row of the `countries` table.  `flag` and `active` are nullable columns
(`active` has default `true`, set explicitly by the seed data). -/
structure Country where
  id : String
  name : String
  code : String
  currency : String
  flag : Option String
  active : Option Bool
deriving DecidableEq

/-- Row of the `grants` table (timestamps omitted, see header). -/
structure Grant where
  id : String
  title : String
  description : String
  category : String
  countryId : String
  minAmount : Option ℚ
  maxAmount : Option ℚ
  amount : Option ℚ
  currency : String
  amountType : Option String
  totalSpots : Int
  availableSpots : Int
  deadline : Option String
  status : Option String
  eligibilityCriteria : Option String
  applicationInstructions : Option String
deriving DecidableEq

/-- Row of the `applications` table (timestamps omitted, see header). -/
structure Application where
  id : String
  grantId : String
  userId : String
  fullName : String
  email : String
  phone : String
  address : String
  reasonForApplying : String
  referralName : Option String
  hasReferral : Bool
  autoQualified : Bool
  status : String
  notes : Option String
deriving DecidableEq

/-- Row of the `contact_messages` table. -/
structure ContactMessage where
  id : String
  firstName : String
  lastName : String
  email : String
  subject : String
  message : String
  status : Option String
deriving DecidableEq

/-- Row of the `grant_awards` table.  `disbursedAt` is the nullable
disbursement timestamp; no query of the modelled logic filters on it. -/
structure GrantAward where
  id : String
  grantId : String
  applicationId : String
  userId : String
  amount : ℚ
  currency : String
  disbursedAt : Option String
deriving DecidableEq

/-- The persistent database state: one list per table. -/
structure DB where
  users : List User
  countries : List Country
  grants : List Grant
  applications : List Application
  contactMessages : List ContactMessage
  grantAwards : List GrantAward
deriving DecidableEq

/-! ### String machinery: SQL LIKE patterns and JS trimming -/

/-- Executable SQL `LIKE` pattern matcher on character lists: `%` matches any
(possibly empty) sequence, `_` matches exactly one character, `\c` matches the
literal character `c`, any other pattern character matches itself.  (Postgres
rejects a pattern ending in a bare `\`; the catch-all literal branch is then
unreachable for the patterns the code builds, which always end in `%`.) -/
def likeMatch (p s : List Char) : Bool :=
  match p with
  | [] => s.isEmpty
  | a :: ps =>
    if a = '%' then
      likeMatch ps s ||
        (match s with
         | [] => false
         | _ :: cs => likeMatch ('%' :: ps) cs)
    else if a = '_' then
      (match s with
       | [] => false
       | _ :: cs => likeMatch ps cs)
    else if a = '\\' then
      (match ps with
       | [] => false
       | q :: ps' =>
         (match s with
          | [] => false
          | c :: cs => q == c && likeMatch ps' cs))
    else
      (match s with
       | [] => false
       | c :: cs => a == c && likeMatch ps cs)
termination_by (s.length, p.length)

/-- SQL `ILIKE`: case-insensitive `LIKE`, modelled by lowering both sides. -/
def ilike (s pat : String) : Bool :=
  likeMatch (pat.data.map Char.toLower) (s.data.map Char.toLower)

/-- Leading- and trailing-whitespace removal on characters, modelling
JavaScript's `String.prototype.trim`. -/
def trimChars (s : List Char) : List Char :=
  ((s.dropWhile Char.isWhitespace).reverse.dropWhile Char.isWhitespace).reverse

/-- Truthiness of `referralName && referralName.trim()` in the submission
handler: the field must be present, a non-empty string, and not all
whitespace. -/
def referralProvided : Option String → Bool
  | none => false
  | some r => r ≠ "" && !(trimChars r.data).isEmpty

/-! ### Storage facade (`DatabaseStorage`) -/

/-- Storage `getAllCountries` (`SELECT * FROM countries`; ordering by name
omitted). -/
def DB.getAllCountries (db : DB) : List Country :=
  db.countries

/-- Storage `getActiveCountries` (`WHERE active = TRUE`). -/
def DB.getActiveCountries (db : DB) : List Country :=
  db.countries.filter (fun c => c.active == some true)

/-- Storage `getAllGrants` (the country `LEFT JOIN` only decorates each grant
row and the claims only read grant columns, so the result keeps the grant
rows). -/
def DB.getAllGrants (db : DB) : List Grant :=
  db.grants

/-- Storage `getGrantsByCountry` (`WHERE grants.country_id = $1`). -/
def DB.getGrantsByCountry (db : DB) (countryId : String) : List Grant :=
  db.grants.filter (fun g => g.countryId == countryId)

/-- Storage `getGrantsByCategory` (`WHERE grants.category = $1`). -/
def DB.getGrantsByCategory (db : DB) (category : String) : List Grant :=
  db.grants.filter (fun g => g.category == category)

/-- Storage `getApplicationById` (`WHERE applications.id = $1`, first row). -/
def DB.getApplicationById (db : DB) (id : String) : Option Application :=
  db.applications.find? (fun a => a.id == id)

/-- Storage `checkUserHasAppliedToGrant`: `SELECT count(*) FROM applications
WHERE user_id = $1 AND grant_id = $2`, then `count > 0`. -/
def DB.checkUserHasAppliedToGrant (db : DB) (userId grantId : String) : Bool :=
  decide (0 < (db.applications.filter
    (fun a => a.userId == userId && a.grantId == grantId)).length)

/-- The value of `CONCAT(users.first_name, ' ', users.last_name)` for an award
row after `LEFT JOIN users ON grant_awards.user_id = users.id`: SQL `CONCAT`
renders `NULL` operands (missing user or null name column) as the empty
string. -/
def awardRecipientFullName (db : DB) (a : GrantAward) : String :=
  let u := db.users.find? (fun u => u.id == a.userId)
  ((u.bind (fun u => u.firstName)).getD "") ++ " " ++
    ((u.bind (fun u => u.lastName)).getD "")

/-- Storage `checkReferralExists`: count award rows whose joined recipient
name matches `ILIKE '%' || referralName || '%'`, then `count > 0`. -/
def DB.checkReferralExists (db : DB) (referralName : String) : Bool :=
  decide (0 < (db.grantAwards.filter
    (fun a => ilike (awardRecipientFullName db a)
      ("%" ++ referralName ++ "%"))).length)

/-- Statistics record returned by storage `getGrantStats`. -/
structure GrantStats where
  totalGrantsDistributed : ℚ
  totalRecipients : Nat
  totalCountries : Nat
  successRate : ℤ
deriving DecidableEq

/-- Storage `getGrantStats`: four independent aggregate reads
(`COALESCE(SUM(amount), 0)` over awards, `count(*)` over awards, `count(*)`
over active countries, `count(*)` over applications total and with status
`selected`), then `Math.round` of the success percentage (0 when there are no
applications). -/
def DB.getGrantStats (db : DB) : GrantStats :=
  let grantsDistributed : ℚ := (db.grantAwards.map (fun a => a.amount)).sum
  let recipients : Nat := db.grantAwards.length
  let countriesCount : Nat :=
    (db.countries.filter (fun c => c.active == some true)).length
  let totalApplications : Nat := db.applications.length
  let selectedApplications : Nat :=
    (db.applications.filter (fun a => a.status == "selected")).length
  let successRate : ℚ :=
    if 0 < totalApplications then
      ((selectedApplications : ℚ) / (totalApplications : ℚ)) * 100
    else 0
  { totalGrantsDistributed := grantsDistributed
    totalRecipients := recipients
    totalCountries := countriesCount
    successRate := round successRate }

/-! ### Route handlers (`registerRoutes`) -/

/-- Truthiness of an optional query-string parameter in
`if (country) ... else if (category) ...`: absent and empty string are falsy. -/
def queryTruthy : Option String → Bool
  | none => false
  | some s => s ≠ ""

/-- Handler for `GET /api/grants`: the `country` filter is consulted first,
then `category`, else all grants are returned. -/
def getGrantsHandler (db : DB) (country category : Option String) : List Grant :=
  if queryTruthy country then
    db.getGrantsByCountry (country.getD "")
  else if queryTruthy category then
    db.getGrantsByCategory (category.getD "")
  else
    db.getAllGrants

/-- Outcome of `GET /api/applications/:id`. -/
inductive GetApplicationOutcome where
  /-- HTTP 404 "Application not found". -/
  | notFound
  /-- HTTP 403 "Access denied". -/
  | accessDenied
  /-- HTTP 200 with the application row. -/
  | ok (application : Application)
deriving DecidableEq

/-- Handler for `GET /api/applications/:id` (authenticated): 404 when the id
matches no row, 403 when the row belongs to another user, else the row. -/
def getApplicationHandler (db : DB) (userId applicationId : String) :
    GetApplicationOutcome :=
  match db.getApplicationById applicationId with
  | none => .notFound
  | some application =>
    if application.userId ≠ userId then .accessDenied
    else .ok application

/-- A JSON body field as the submission and check-referral handlers see it. -/
inductive BodyValue where
  | absent
  | nullValue
  | boolValue (b : Bool)
  | numberValue (q : ℚ)
  | stringValue (s : String)
deriving DecidableEq

/-- JavaScript truthiness of a body field. -/
def jsTruthy : BodyValue → Bool
  | .absent => false
  | .nullValue => false
  | .boolValue b => b
  | .numberValue q => q ≠ 0
  | .stringValue s => s ≠ ""

/-- The `typeof x === 'string'` test. -/
def jsIsString : BodyValue → Bool
  | .stringValue _ => true
  | _ => false

/-- Outcome of `POST /api/check-referral`. -/
inductive CheckReferralOutcome where
  /-- HTTP 400 "Referral name is required". -/
  | badRequest
  /-- HTTP 200 with JSON fields `exists` (here `found`) and `autoQualified`. -/
  | ok (found autoQualified : Bool)
deriving DecidableEq

/-- Handler for `POST /api/check-referral`: reject non-truthy or non-string
`referralName` with 400, else answer with the lookup result duplicated into
both JSON fields.  (The final branch is unreachable: a truthy string is a
`stringValue`.) -/
def checkReferralHandler (db : DB) (referralName : BodyValue) :
    CheckReferralOutcome :=
  if !jsTruthy referralName || !jsIsString referralName then
    .badRequest
  else
    match referralName with
    | .stringValue s => .ok (db.checkReferralExists s) (db.checkReferralExists s)
    | _ => .badRequest

/-- The application payload after `insertApplicationSchema.parse`.  The
parsed `userId`, `hasReferral`, `autoQualified` and `status` fields are not
modelled: the handler overwrites all four by spreading them after the payload
before the insert. -/
structure InsertApplicationPayload where
  grantId : String
  fullName : String
  email : String
  phone : String
  address : String
  reasonForApplying : String
  referralName : Option String
  notes : Option String
deriving DecidableEq

/-- Outcome of `POST /api/applications` for a schema-valid payload. -/
inductive SubmitOutcome where
  /-- HTTP 400 "You have already applied to this grant". -/
  | alreadyApplied
  /-- HTTP 201 with the created row and the `qualified` flag. -/
  | created (application : Application) (qualified : Bool)
deriving DecidableEq

/-- Handler for `POST /api/applications` (authenticated, schema-valid body).
`rand` is the value `Math.random()` would return (drawn only when the
referral path did not already qualify the applicant); `freshId` is the
generated row id. -/
def postApplicationHandler (db : DB) (userId : String)
    (p : InsertApplicationPayload) (rand : ℚ) (freshId : String) :
    SubmitOutcome × DB :=
  if db.checkUserHasAppliedToGrant userId p.grantId then
    (.alreadyApplied, db)
  else
    let hasReferral : Bool :=
      if referralProvided p.referralName then
        db.checkReferralExists (p.referralName.getD "")
      else false
    let autoQualified : Bool :=
      if hasReferral then true else decide (rand > 3 / 10)
    let application : Application :=
      { id := freshId
        grantId := p.grantId
        userId := userId
        fullName := p.fullName
        email := p.email
        phone := p.phone
        address := p.address
        reasonForApplying := p.reasonForApplying
        referralName := p.referralName
        hasReferral := hasReferral
        autoQualified := autoQualified
        status := if autoQualified then "qualified" else "not_qualified"
        notes := p.notes }
    (.created application autoQualified,
      { db with applications := db.applications ++ [application] })

/-! ### Seed bootstrap -/

/-- The fixed list of default countries inserted by `initializeCountries`
when the country table is empty (flag strings copied byte-for-byte from the
source). -/
def defaultCountries : List Country := [
  { id := "usa", name := "United States", code := "USA", currency := "USD",
    flag := some "ðŸ‡ºðŸ‡¸", active := some true },
  { id := "uk", name := "United Kingdom", code := "GBR", currency := "GBP",
    flag := some "ðŸ‡¬ðŸ‡§", active := some true },
  { id := "canada", name := "Canada", code := "CAN", currency := "CAD",
    flag := some "ðŸ‡¨ðŸ‡¦", active := some true },
  { id := "australia", name := "Australia", code := "AUS", currency := "AUD",
    flag := some "ðŸ‡¦ðŸ‡º", active := some true },
  { id := "newzealand", name := "New Zealand", code := "NZL", currency := "NZD",
    flag := some "ðŸ‡³ðŸ‡¿", active := some true },
  { id := "germany", name := "Germany", code := "DEU", currency := "EUR",
    flag := some "ðŸ‡©ðŸ‡ª", active := some true },
  { id := "france", name := "France", code := "FRA", currency := "EUR",
    flag := some "ðŸ‡«ðŸ‡·", active := some true },
  { id := "japan", name := "Japan", code := "JPN", currency := "JPY",
    flag := some "ðŸ‡¯ðŸ‡µ", active := some true },
  { id := "southkorea", name := "South Korea", code := "KOR", currency := "KRW",
    flag := some "ðŸ‡°ðŸ‡·", active := some true },
  { id := "singapore", name := "Singapore", code := "SGP", currency := "SGD",
    flag := some "ðŸ‡¸ðŸ‡¬", active := some true },
  { id := "uae", name := "United Arab Emirates", code := "ARE", currency := "AED",
    flag := some "ðŸ‡¦ðŸ‡ª", active := some true },
  { id := "netherlands", name := "Netherlands", code := "NLD", currency := "EUR",
    flag := some "ðŸ‡³ðŸ‡±", active := some true },
  { id := "sweden", name := "Sweden", code := "SWE", currency := "SEK",
    flag := some "ðŸ‡¸ðŸ‡ª", active := some true },
  { id := "norway", name := "Norway", code := "NOR", currency := "NOK",
    flag := some "ðŸ‡³ðŸ‡´", active := some true }
]

/-- A grant payload as passed to storage `createGrant` by the seed routine
(everything but the generated id). -/
structure InsertGrant where
  title : String
  description : String
  category : String
  countryId : String
  minAmount : Option ℚ
  maxAmount : Option ℚ
  amount : Option ℚ
  currency : String
  amountType : Option String
  totalSpots : Int
  availableSpots : Int
  deadline : Option String
  status : Option String
  eligibilityCriteria : Option String
  applicationInstructions : Option String
deriving DecidableEq

/-- Storage `createGrant`: attach the generated id to the payload. -/
def mkGrant (id : String) (g : InsertGrant) : Grant :=
  { id := id
    title := g.title
    description := g.description
    category := g.category
    countryId := g.countryId
    minAmount := g.minAmount
    maxAmount := g.maxAmount
    amount := g.amount
    currency := g.currency
    amountType := g.amountType
    totalSpots := g.totalSpots
    availableSpots := g.availableSpots
    deadline := g.deadline
    status := g.status
    eligibilityCriteria := g.eligibilityCriteria
    applicationInstructions := g.applicationInstructions }

/-- The fixed list of sample grants inserted by `initializeGrants` when the
grant table is empty. -/
def sampleGrants : List InsertGrant := [
  { title := "Senior Citizens Support Grant",
    description := "Comprehensive support for seniors covering healthcare, housing modifications, and daily living assistance.",
    category := "seniors", countryId := "usa",
    minAmount := some 15000, maxAmount := some 35000, amount := none, currency := "USD",
    amountType := some "range", totalSpots := 750, availableSpots := 750,
    deadline := some "2025-06-30", status := some "active",
    eligibilityCriteria := some "Age 65 or older with demonstrated need for assistance",
    applicationInstructions := some "Submit age verification, medical records, and needs assessment" },
  { title := "Emergency Financial Relief Grant",
    description := "Immediate financial assistance for individuals and families facing unexpected hardships.",
    category := "emergency", countryId := "uk",
    minAmount := some 5000, maxAmount := some 35000, amount := none, currency := "GBP",
    amountType := some "range", totalSpots := 9999, availableSpots := 9999,
    deadline := none, status := some "active",
    eligibilityCriteria := some "Demonstrated financial hardship due to unexpected circumstances",
    applicationInstructions := some "Submit hardship documentation and proof of expenses" },
  { title := "First Home Buyer Assistance Grant",
    description := "Supporting first-time home buyers with down payment assistance and closing cost relief.",
    category := "homebuyer", countryId := "australia",
    minAmount := some 20000, maxAmount := some 60000, amount := none, currency := "AUD",
    amountType := some "range", totalSpots := 1000, availableSpots := 1000,
    deadline := some "2025-03-31", status := some "active",
    eligibilityCriteria := some "First-time home buyers with household income under $150,000",
    applicationInstructions := some "Submit income verification, pre-approval letter, and property details" },
  { title := "Healthcare Innovation Research Grant",
    description := "Funding breakthrough medical research and healthcare technology development initiatives.",
    category := "research", countryId := "canada",
    minAmount := some 50000, maxAmount := some 200000, amount := none, currency := "CAD",
    amountType := some "range", totalSpots := 150, availableSpots := 150,
    deadline := some "2025-02-28", status := some "active",
    eligibilityCriteria := some "Healthcare professionals or researchers with institutional affiliation",
    applicationInstructions := some "Submit research proposal, ethics approval, and team credentials" },
  { title := "Small Business Innovation Grant",
    description := "Empowering entrepreneurs and small business owners to scale their operations and create jobs.",
    category := "business", countryId := "germany",
    minAmount := some 10000, maxAmount := some 50000, amount := none, currency := "EUR",
    amountType := some "range", totalSpots := 200, availableSpots := 200,
    deadline := some "2025-01-15", status := some "active",
    eligibilityCriteria := some "Small business with less than 50 employees",
    applicationInstructions := some "Submit business plan, financial statements, and growth projections" },
  { title := "Higher Education Excellence Grant",
    description := "Supporting outstanding students pursuing advanced degrees in STEM fields across universities.",
    category := "education", countryId := "france",
    minAmount := some 25000, maxAmount := some 100000, amount := none, currency := "EUR",
    amountType := some "range", totalSpots := 500, availableSpots := 500,
    deadline := some "2025-12-31", status := some "active",
    eligibilityCriteria := some "Must be enrolled in a STEM program at an accredited university",
    applicationInstructions := some "Submit transcripts, research proposal, and recommendation letters" },
  { title := "Community Housing Development Grant",
    description := "Supporting community-based housing projects and affordable rental developments.",
    category := "housing", countryId := "netherlands",
    minAmount := some 100000, maxAmount := some 500000, amount := none, currency := "EUR",
    amountType := some "range", totalSpots := 50, availableSpots := 50,
    deadline := some "2025-05-31", status := some "active",
    eligibilityCriteria := some "Non-profit organizations and community development entities",
    applicationInstructions := some "Submit project proposal, community impact assessment, and budget" },
  { title := "Technology Innovation Startup Grant",
    description := "Funding for innovative technology startups and digital transformation initiatives.",
    category := "innovation", countryId := "singapore",
    minAmount := some 20000, maxAmount := some 150000, amount := none, currency := "SGD",
    amountType := some "range", totalSpots := 100, availableSpots := 100,
    deadline := some "2025-04-30", status := some "active",
    eligibilityCriteria := some "Technology startups less than 3 years old",
    applicationInstructions := some "Submit business plan, technology demo, and market analysis" }
]

/-- Seed routine `initializeCountries`: when `getAllCountries` comes back
empty, insert every default country in order. -/
def initializeCountries (db : DB) : DB :=
  if db.getAllCountries.length == 0 then
    { db with countries := db.countries ++ defaultCountries }
  else db

/-- Seed routine `initializeGrants`: when `getAllGrants` comes back empty,
insert every sample grant in order, pairing each with its generated id from
`ids`. -/
def initializeGrants (ids : List String) (db : DB) : DB :=
  if db.getAllGrants.length == 0 then
    { db with grants := db.grants ++ List.zipWith mkGrant ids sampleGrants }
  else db

/-- The bootstrap run at process start (`registerRoutes` calls
`initializeCountries` then `initializeGrants`). -/
def seedBootstrap (ids : List String) (db : DB) : DB :=
  initializeGrants ids (initializeCountries db)


/-! ### Specification-side definitions

These follow the specification's wording ("full name contains the referral
string as a substring, case-insensitively") for comparison against the
`ILIKE`-based lookup the code performs. -/

/-- Substring test on character lists: does `needle` occur contiguously
inside `hay`? -/
def containsSub (hay needle : List Char) : Bool :=
  match hay with
  | [] => needle.isEmpty
  | _ :: t => needle.isPrefixOf hay || containsSub t needle

/-- Spec-side predicate: `hay` contains `needle` as a substring, comparing
case-insensitively. -/
def specContainsCI (hay needle : String) : Bool :=
  containsSub (hay.data.map Char.toLower) (needle.data.map Char.toLower)

/-! ### Helper lemmas -/

theorem data_append (s t : String) : (s ++ t).data = s.data ++ t.data := by
  cases s; cases t; rfl

theorem charOfNat_toNat_shift (n : Nat) (h1 : 65 ≤ n) (h2 : n ≤ 90) :
    (Char.ofNat (n + 32)).toNat = n + 32 := by
  have hv : Nat.isValidChar (n + 32) := Or.inl (by omega)
  simp [Char.ofNat, hv, Char.toNat, Char.ofNatAux, UInt32.toNat, UInt32.ofNatCore]

/-- Lowercasing can only produce letters in the range 97-122, so a character
whose lowercase form is a low-codepoint symbol was that symbol already. -/
theorem toLower_fix_of_lt (c d : Char) (hd : d.toNat < 97) (h : c.toLower = d) :
    c = d := by
  simp only [Char.toLower] at h
  split at h
  · next hc =>
    have h2 := charOfNat_toNat_shift c.toNat hc.1 hc.2
    rw [h] at h2
    omega
  · exact h

theorem map_toLower_metafree {n : List Char}
    (h : ∀ c ∈ n, c ≠ '%' ∧ c ≠ '_' ∧ c ≠ '\\') :
    ∀ c ∈ n.map Char.toLower, c ≠ '%' ∧ c ≠ '_' ∧ c ≠ '\\' := by
  intro c hc
  obtain ⟨d, hd, rfl⟩ := List.mem_map.1 hc
  obtain ⟨h1, h2, h3⟩ := h d hd
  exact ⟨fun he => h1 (toLower_fix_of_lt d '%' (by decide) he),
    fun he => h2 (toLower_fix_of_lt d '_' (by decide) he),
    fun he => h3 (toLower_fix_of_lt d '\\' (by decide) he)⟩

/-- The pattern consisting of a single `%` matches every string. -/
theorem likeMatch_pct_any (s : List Char) : likeMatch ['%'] s = true := by
  induction s with
  | nil => simp [likeMatch]
  | cons c cs ih =>
    rw [likeMatch]
    simp [ih, likeMatch]

/-- A metacharacter-free pattern followed by `%` matches exactly the strings
it prefixes. -/
theorem likeMatch_lit (n : List Char)
    (hn : ∀ c ∈ n, c ≠ '%' ∧ c ≠ '_' ∧ c ≠ '\\') :
    ∀ s : List Char, likeMatch (n ++ ['%']) s = n.isPrefixOf s := by
  induction n with
  | nil => intro s; simpa [List.isPrefixOf] using likeMatch_pct_any s
  | cons a n2 ih =>
    intro s
    obtain ⟨h1, h2, h3⟩ := hn a (by simp)
    rw [List.cons_append, likeMatch.eq_def]
    simp only [if_neg h1, if_neg h2, if_neg h3]
    cases s with
    | nil => simp [List.isPrefixOf]
    | cons c cs =>
      simp [List.isPrefixOf, ih (fun c hc => hn c (by simp [hc]))]

/-- For a metacharacter-free core `n`, the pattern `%n%` matches exactly the
strings containing `n` as a substring. -/
theorem likeMatch_wrap (n : List Char)
    (hn : ∀ c ∈ n, c ≠ '%' ∧ c ≠ '_' ∧ c ≠ '\\') :
    ∀ s : List Char, likeMatch ('%' :: (n ++ ['%'])) s = containsSub s n := by
  intro s
  induction s with
  | nil =>
    rw [likeMatch.eq_def]
    simp only [likeMatch_lit n hn, containsSub]
    cases n <;> simp [List.isPrefixOf, likeMatch]
  | cons c cs ih =>
    rw [likeMatch.eq_def]
    simp [likeMatch_lit n hn, containsSub, ih]

/-- For metacharacter-free needles, `ILIKE '%needle%'` coincides with the
spec's case-insensitive substring test. -/
theorem ilike_wrap_eq (hay name : String)
    (h : ∀ c ∈ name.data, c ≠ '%' ∧ c ≠ '_' ∧ c ≠ '\\') :
    ilike hay ("%" ++ name ++ "%") = specContainsCI hay name := by
  unfold ilike specContainsCI
  rw [data_append, data_append]
  have e0 : ("%" : String).data = ['%'] := rfl
  have e1 : Char.toLower '%' = '%' := by decide
  rw [e0]
  simp only [List.map_append, List.map_cons, List.map_nil, e1]
  exact likeMatch_wrap (name.data.map Char.toLower) (map_toLower_metafree h)
    (hay.data.map Char.toLower)

/-- A `count(*) > 0` test over a filtered table is an existence statement. -/
theorem filter_count_pos_iff {α : Type} (p : α → Bool) (l : List α) :
    decide (0 < (l.filter p).length) = true ↔ ∃ a ∈ l, p a = true := by
  simp only [decide_eq_true_eq, List.length_pos]
  constructor
  · intro h
    obtain ⟨a, ha⟩ := List.exists_mem_of_ne_nil _ h
    exact ⟨a, (List.mem_filter.1 ha).1, (List.mem_filter.1 ha).2⟩
  · rintro ⟨a, ha, hp⟩ hnil
    rw [List.filter_eq_nil_iff] at hnil
    exact hnil a ha hp

/-- The referral lookup succeeds exactly when some award row's joined
recipient name matches the `ILIKE` pattern. -/
theorem checkReferralExists_iff (db : DB) (name : String) :
    db.checkReferralExists name = true ↔
      ∃ a ∈ db.grantAwards,
        ilike (awardRecipientFullName db a) ("%" ++ name ++ "%") = true := by
  unfold DB.checkReferralExists
  exact filter_count_pos_iff _ _

/-! ### Concrete fixtures for witnesses and counterexamples -/

/-- An empty database. -/
def emptyDB : DB :=
  { users := [], countries := [], grants := [], applications := [],
    contactMessages := [], grantAwards := [] }

/-- A recorded award recipient named "Jo Do". -/
def refUser : User :=
  { id := "u1", email := some "jo@example.com",
    firstName := some "Jo", lastName := some "Do" }

/-- An award held by `refUser` (not yet disbursed). -/
def refAward : GrantAward :=
  { id := "aw1", grantId := "g1", applicationId := "appX", userId := "u1",
    amount := 1000, currency := "USD", disbursedAt := none }

/-- A database whose award corpus contains exactly the "Jo Do" award. -/
def refDB : DB :=
  { emptyDB with users := [refUser], grantAwards := [refAward] }

/-- A schema-valid application payload without a referral. -/
def plainPayload : InsertApplicationPayload :=
  { grantId := "g1", fullName := "A B", email := "a@b.example", phone := "1",
    address := "x", reasonForApplying := "r", referralName := none,
    notes := none }

/-- The same payload naming "Jo" as referral. -/
def referralPayload : InsertApplicationPayload :=
  { plainPayload with referralName := some "Jo" }

/-- An application row by user `u1` for grant `g1`. -/
def priorApp : Application :=
  { id := "app1", grantId := "g1", userId := "u1", fullName := "A B",
    email := "a@b.example", phone := "1", address := "x",
    reasonForApplying := "r", referralName := none, hasReferral := false,
    autoQualified := true, status := "qualified", notes := none }

/-- A database in which `u1` has already applied to `g1`. -/
def dbWithApp : DB := { emptyDB with applications := [priorApp] }

/-- Concrete evaluation: the referral lookup finds "Jo" in `refDB`. -/
theorem refDB_lookup_Jo : refDB.checkReferralExists "Jo" = true := by
  simp [DB.checkReferralExists, ilike, awardRecipientFullName, refDB, refAward,
    refUser, emptyDB, likeMatch]

/-! ### Claims about application submission -/

/-- C1.  A submission whose referral name passes the truthiness/trim guard
and for which the referral lookup succeeds is persisted with
`hasReferral = true`, `autoQualified = true` and `status = 'qualified'`
(the duplicate check must pass for anything to be persisted at all). -/
theorem submit_referral_match_qualifies (db : DB) (userId : String)
    (p : InsertApplicationPayload) (rand : ℚ) (freshId : String)
    (hdup : db.checkUserHasAppliedToGrant userId p.grantId = false)
    (hprov : referralProvided p.referralName = true)
    (hfound : db.checkReferralExists (p.referralName.getD "") = true) :
    ∃ app, postApplicationHandler db userId p rand freshId =
        (.created app true, { db with applications := db.applications ++ [app] }) ∧
      app.hasReferral = true ∧ app.autoQualified = true ∧
      app.status = "qualified" := by
  simp only [postApplicationHandler, hdup, hprov, hfound, Bool.false_eq_true,
    if_false, if_true]
  exact ⟨_, rfl, rfl, rfl, rfl⟩

theorem submit_referral_match_qualifies_witness :
    refDB.checkUserHasAppliedToGrant "u9" referralPayload.grantId = false ∧
    referralProvided referralPayload.referralName = true ∧
    refDB.checkReferralExists (referralPayload.referralName.getD "") = true ∧
    ∃ app, postApplicationHandler refDB "u9" referralPayload 0 "f1" =
        (.created app true,
          { refDB with applications := refDB.applications ++ [app] }) ∧
      app.hasReferral = true ∧ app.autoQualified = true ∧
      app.status = "qualified" :=
  ⟨by decide, by decide, refDB_lookup_Jo,
    submit_referral_match_qualifies refDB "u9" referralPayload 0 "f1"
      (by decide) (by decide) refDB_lookup_Jo⟩

/-- C2.  A submission with no referral (or a referral the lookup misses) is
decided by the single random draw: `autoQualified = (rand > 0.3)`, status
`'qualified'` or `'not_qualified'` accordingly, `hasReferral = false`. -/
theorem submit_no_referral_random (db : DB) (userId : String)
    (p : InsertApplicationPayload) (rand : ℚ) (freshId : String)
    (hdup : db.checkUserHasAppliedToGrant userId p.grantId = false)
    (hmiss : referralProvided p.referralName = false ∨
      db.checkReferralExists (p.referralName.getD "") = false) :
    ∃ app, postApplicationHandler db userId p rand freshId =
        (.created app (decide (rand > 3 / 10)),
          { db with applications := db.applications ++ [app] }) ∧
      app.hasReferral = false ∧
      app.autoQualified = decide (rand > 3 / 10) ∧
      app.status = (if rand > 3 / 10 then "qualified" else "not_qualified") := by
  by_cases hp : referralProvided p.referralName = true
  · rcases hmiss with hmiss | hmiss
    · rw [hp] at hmiss; cases hmiss
    · simp only [postApplicationHandler, hdup, hp, hmiss, Bool.false_eq_true,
        if_false, if_true]
      refine ⟨_, rfl, rfl, rfl, ?_⟩
      simp
  · rw [Bool.not_eq_true] at hp
    simp only [postApplicationHandler, hdup, hp, Bool.false_eq_true, if_false]
    refine ⟨_, rfl, rfl, rfl, ?_⟩
    simp


theorem submit_no_referral_random_witness :
    emptyDB.checkUserHasAppliedToGrant "u9" plainPayload.grantId = false ∧
    referralProvided plainPayload.referralName = false ∧
    ∃ app, postApplicationHandler emptyDB "u9" plainPayload 1 "f1" =
        (.created app (decide ((1 : ℚ) > 3 / 10)),
          { emptyDB with applications := emptyDB.applications ++ [app] }) ∧
      app.hasReferral = false ∧
      app.autoQualified = decide ((1 : ℚ) > 3 / 10) ∧
      app.status = (if (1 : ℚ) > 3 / 10 then "qualified" else "not_qualified") :=
  ⟨by decide, by decide,
    submit_no_referral_random emptyDB "u9" plainPayload 1 "f1" (by decide)
      (Or.inl (by decide))⟩

/-- C3.  When the (user, grant) pair already has an application, the
submission is rejected with the domain error (HTTP 400) and the state is
returned unchanged: no row is inserted. -/
theorem duplicate_submission_rejected (db : DB) (userId : String)
    (p : InsertApplicationPayload) (rand : ℚ) (freshId : String)
    (hdup : ∃ a ∈ db.applications, a.userId = userId ∧ a.grantId = p.grantId) :
    postApplicationHandler db userId p rand freshId = (.alreadyApplied, db) := by
  have hc : db.checkUserHasAppliedToGrant userId p.grantId = true := by
    unfold DB.checkUserHasAppliedToGrant
    rw [filter_count_pos_iff]
    obtain ⟨a, ha, h1, h2⟩ := hdup
    exact ⟨a, ha, by simp [h1, h2]⟩
  simp [postApplicationHandler, hc]

theorem duplicate_submission_rejected_witness :
    (∃ a ∈ dbWithApp.applications,
      a.userId = "u1" ∧ a.grantId = plainPayload.grantId) ∧
    postApplicationHandler dbWithApp "u1" plainPayload 0 "f1" =
      (.alreadyApplied, dbWithApp) :=
  ⟨by decide,
    duplicate_submission_rejected dbWithApp "u1" plainPayload 0 "f1" (by decide)⟩

/-- C9.  A successful submission appends exactly one application row and
leaves every other table — in particular the grants table with its
`availableSpots` counters — untouched. -/
theorem submission_frame (db : DB) (userId : String)
    (p : InsertApplicationPayload) (rand : ℚ) (freshId : String)
    (hdup : db.checkUserHasAppliedToGrant userId p.grantId = false) :
    ∃ app qualified, postApplicationHandler db userId p rand freshId =
      (.created app qualified,
        { users := db.users, countries := db.countries, grants := db.grants,
          applications := db.applications ++ [app],
          contactMessages := db.contactMessages,
          grantAwards := db.grantAwards }) := by
  simp only [postApplicationHandler, hdup, Bool.false_eq_true, if_false]
  exact ⟨_, _, rfl⟩

theorem submission_frame_witness :
    refDB.checkUserHasAppliedToGrant "u9" plainPayload.grantId = false ∧
    ∃ app qualified, postApplicationHandler refDB "u9" plainPayload 1 "f1" =
      (.created app qualified,
        { users := refDB.users, countries := refDB.countries,
          grants := refDB.grants,
          applications := refDB.applications ++ [app],
          contactMessages := refDB.contactMessages,
          grantAwards := refDB.grantAwards }) :=
  ⟨by decide, submission_frame refDB "u9" plainPayload 1 "f1" (by decide)⟩

/-! ### Claim about the statistics rollup -/

theorem sum_map_amount (l : List GrantAward) :
    (l.map (fun a => a.amount)).sum = l.foldr (fun a t => a.amount + t) 0 := by
  induction l with
  | nil => simp
  | cons a t ih => simp [ih]

/-- C4.  `getGrantStats` returns the sum of all award amounts (0 when there
are none), the award count, the active-country count, and a success rate
that is 0 with no applications and otherwise the percentage of `selected`
applications rounded to the nearest integer. -/
theorem getGrantStats_spec (db : DB) :
    db.getGrantStats.totalGrantsDistributed =
        db.grantAwards.foldr (fun a t => a.amount + t) 0 ∧
    db.getGrantStats.totalRecipients = db.grantAwards.length ∧
    db.getGrantStats.totalCountries =
        db.countries.countP (fun c => c.active == some true) ∧
    (db.applications.length = 0 → db.getGrantStats.successRate = 0) ∧
    (0 < db.applications.length →
      db.getGrantStats.successRate =
        round (((db.applications.countP
            (fun a => a.status == "selected") : ℚ) /
          (db.applications.length : ℚ)) * 100)) := by
  refine ⟨?_, rfl, ?_, ?_, ?_⟩
  · exact sum_map_amount db.grantAwards
  · simp [DB.getGrantStats, List.countP_eq_length_filter]
  · intro h
    simp [DB.getGrantStats, h]
  · intro h
    simp [DB.getGrantStats, h, List.countP_eq_length_filter]

theorem getGrantStats_spec_witness :
    (0 < dbWithApp.applications.length →
      dbWithApp.getGrantStats.successRate =
        round (((dbWithApp.applications.countP
            (fun a => a.status == "selected") : ℚ) /
          (dbWithApp.applications.length : ℚ)) * 100)) ∧
    dbWithApp.getGrantStats.totalRecipients = dbWithApp.grantAwards.length :=
  ⟨(getGrantStats_spec dbWithApp).2.2.2.2, (getGrantStats_spec dbWithApp).2.1⟩

/-! ### Claim about the seed bootstrap -/

/-- C6.  The bootstrap is a no-op on non-empty tables (so a second run right
after a first changes nothing), seeds the 14 default countries into an empty
country table, and seeds the 8 sample grants into an empty grant table. -/
theorem seedBootstrap_spec (db : DB) (ids ids2 : List String) :
    (db.countries ≠ [] → db.grants ≠ [] → seedBootstrap ids db = db) ∧
    (db.countries = [] →
      (seedBootstrap ids db).countries = defaultCountries ∧
      defaultCountries.length = 14) ∧
    (db.grants = [] →
      (seedBootstrap ids db).grants = List.zipWith mkGrant ids sampleGrants ∧
      sampleGrants.length = 8) ∧
    (ids.length = 8 →
      seedBootstrap ids2 (seedBootstrap ids db) = seedBootstrap ids db) := by
  have hgc : ∀ (l : List String) (d : DB),
      (initializeGrants l d).countries = d.countries := by
    intro l d; unfold initializeGrants; split <;> rfl
  have hcg : ∀ d : DB, (initializeCountries d).grants = d.grants := by
    intro d; unfold initializeCountries; split <;> rfl
  have hid : ∀ (l : List String) (d : DB), d.countries ≠ [] → d.grants ≠ [] →
      seedBootstrap l d = d := by
    intro l d hc hg
    simp [seedBootstrap, initializeCountries, initializeGrants,
      DB.getAllCountries, DB.getAllGrants, List.length_eq_zero, hc, hg]
  have hcafter : ∀ l : List String, (seedBootstrap l db).countries =
      (if db.countries = [] then defaultCountries else db.countries) := by
    intro l
    rw [seedBootstrap, hgc]
    unfold initializeCountries
    by_cases hc : db.countries = [] <;>
      simp [DB.getAllCountries, List.length_eq_zero, hc]
  have hgafter : ∀ l : List String, (seedBootstrap l db).grants =
      (if db.grants = [] then List.zipWith mkGrant l sampleGrants
       else db.grants) := by
    intro l
    rw [seedBootstrap]
    unfold initializeGrants
    by_cases hg : db.grants = [] <;>
      simp [DB.getAllGrants, hcg, List.length_eq_zero, hg]
  refine ⟨hid ids db, ?_, ?_, ?_⟩
  · intro hc
    refine ⟨?_, rfl⟩
    rw [hcafter, if_pos hc]
  · intro hg
    refine ⟨?_, rfl⟩
    rw [hgafter, if_pos hg]
  · intro hids
    have h1 : (seedBootstrap ids db).countries ≠ [] := by
      rw [hcafter]
      split
      · decide
      · assumption
    have h2 : (seedBootstrap ids db).grants ≠ [] := by
      rw [hgafter]
      split
      · intro heq
        have hlen := congrArg List.length heq
        simp [List.length_zipWith, hids] at hlen
        exact absurd hlen (by decide)
      · assumption
    exact hid ids2 _ h1 h2

theorem seedBootstrap_spec_witness :
    (emptyDB.countries = [] →
      (seedBootstrap ["i1", "i2", "i3", "i4", "i5", "i6", "i7", "i8"]
          emptyDB).countries = defaultCountries ∧
      defaultCountries.length = 14) ∧
    ((["i1", "i2", "i3", "i4", "i5", "i6", "i7", "i8"] : List String).length = 8 →
      seedBootstrap ["j1"]
          (seedBootstrap ["i1", "i2", "i3", "i4", "i5", "i6", "i7", "i8"] emptyDB) =
        seedBootstrap ["i1", "i2", "i3", "i4", "i5", "i6", "i7", "i8"] emptyDB) :=
  ⟨(seedBootstrap_spec emptyDB
      ["i1", "i2", "i3", "i4", "i5", "i6", "i7", "i8"] ["j1"]).2.1,
    (seedBootstrap_spec emptyDB
      ["i1", "i2", "i3", "i4", "i5", "i6", "i7", "i8"] ["j1"]).2.2.2⟩

/-! ### Claims about the grant listing and lookup endpoints -/

/-- A grant of category `education` in country `usa`. -/
def eduGrant : Grant :=
  { id := "g1", title := "Higher Education Excellence Grant",
    description := "d", category := "education", countryId := "usa",
    minAmount := none, maxAmount := none, amount := none, currency := "USD",
    amountType := none, totalSpots := 1, availableSpots := 1,
    deadline := none, status := some "active", eligibilityCriteria := none,
    applicationInstructions := none }

/-- A database holding exactly the one `education` grant. -/
def dbOneGrant : DB := { emptyDB with grants := [eduGrant] }

/-- C7, counterexample: with the `country` parameter also set, the handler
takes the country branch and ignores `category`, returning a grant whose
category differs from the requested one. -/
theorem grants_category_filter_counterexample :
    ¬ (∀ g ∈ getGrantsHandler dbOneGrant (some "usa") (some "business"),
        g.category = "business") := by decide

/-- C7 (amended).  When the `country` parameter is absent or empty and the
`category` parameter carries a non-empty value, every returned grant has
that category. -/
theorem grants_category_filter (db : DB) (country : Option String)
    (cat : String) (hc : queryTruthy country = false) (hcat : cat ≠ "") :
    ∀ g ∈ getGrantsHandler db country (some cat), g.category = cat := by
  intro g hg
  rw [getGrantsHandler, if_neg (by simp [hc]), if_pos (by simp [queryTruthy, hcat])] at hg
  simp [DB.getGrantsByCategory, List.mem_filter] at hg
  exact hg.2

theorem grants_category_filter_witness :
    queryTruthy none = false ∧ ("education" : String) ≠ "" ∧
    ∀ g ∈ getGrantsHandler dbOneGrant none (some "education"),
      g.category = "education" :=
  ⟨by decide, by decide,
    grants_category_filter dbOneGrant none "education" (by decide) (by decide)⟩

/-- C8.  `GET /api/applications/:id` answers 404 when no application has the
requested id, 403 when the application belongs to a different user, and
returns the application only when the requester owns it. -/
theorem getApplication_access (db : DB) (userId applicationId : String) :
    ((∀ a ∈ db.applications, a.id ≠ applicationId) →
      getApplicationHandler db userId applicationId = .notFound) ∧
    (∀ a, db.getApplicationById applicationId = some a →
      (a.userId ≠ userId →
        getApplicationHandler db userId applicationId = .accessDenied) ∧
      (a.userId = userId →
        getApplicationHandler db userId applicationId = .ok a)) ∧
    (∀ a, getApplicationHandler db userId applicationId = .ok a →
      a ∈ db.applications ∧ a.id = applicationId ∧ a.userId = userId) := by
  refine ⟨?_, ?_, ?_⟩
  · intro hnone
    have hfind : db.getApplicationById applicationId = none := by
      unfold DB.getApplicationById
      rw [List.find?_eq_none]
      intro a ha
      simp [hnone a ha]
    simp [getApplicationHandler, hfind]
  · intro a hfind
    constructor
    · intro hne
      simp [getApplicationHandler, hfind, hne]
    · intro heq
      simp [getApplicationHandler, hfind, heq]
  · intro a hok
    cases hfind : db.getApplicationById applicationId with
    | none =>
      simp only [getApplicationHandler, hfind] at hok
      cases hok
    | some b =>
      simp only [getApplicationHandler, hfind] at hok
      unfold DB.getApplicationById at hfind
      by_cases hb : b.userId = userId
      · rw [if_neg (by simp [hb])] at hok
        cases hok
        refine ⟨List.mem_of_find?_eq_some hfind, ?_, hb⟩
        have hpred := List.find?_some hfind
        simpa using hpred
      · rw [if_pos hb] at hok
        cases hok

theorem getApplication_access_witness :
    ((∀ a ∈ dbWithApp.applications, a.id ≠ "nope") →
      getApplicationHandler dbWithApp "u1" "nope" = .notFound) ∧
    (∀ a, dbWithApp.getApplicationById "app1" = some a →
      (a.userId ≠ "u2" →
        getApplicationHandler dbWithApp "u2" "app1" = .accessDenied) ∧
      (a.userId = "u2" →
        getApplicationHandler dbWithApp "u2" "app1" = .ok a)) :=
  ⟨(getApplication_access dbWithApp "u1" "nope").1,
    (getApplication_access dbWithApp "u2" "app1").2.1⟩

/-- C10.  `POST /api/check-referral` rejects an absent, non-string or empty
`referralName` with HTTP 400 regardless of the stored state (no lookup is
performed), and on a non-empty string it returns a response whose
`autoQualified` field duplicates its `exists` field. -/
theorem checkReferral_validation (db : DB) (v : BodyValue) :
    ((v = .absent ∨ jsIsString v = false ∨ v = .stringValue "") →
      ∀ db2 : DB, checkReferralHandler db2 v = .badRequest) ∧
    (∀ s, v = .stringValue s → s ≠ "" →
      ∃ found, checkReferralHandler db v = .ok found found) := by
  constructor
  · rintro (rfl | hns | rfl) db2
    · simp [checkReferralHandler, jsTruthy, jsIsString]
    · cases v <;> simp_all [checkReferralHandler, jsTruthy, jsIsString]
    · simp [checkReferralHandler, jsTruthy, jsIsString]
  · intro s hv hs
    subst hv
    exact ⟨db.checkReferralExists s,
      by simp [checkReferralHandler, jsTruthy, jsIsString, hs]⟩

theorem checkReferral_validation_witness :
    ((BodyValue.nullValue = .absent ∨ jsIsString .nullValue = false ∨
        BodyValue.nullValue = .stringValue "") →
      ∀ db2 : DB, checkReferralHandler db2 .nullValue = .badRequest) ∧
    (∀ s, BodyValue.stringValue "Jo" = .stringValue s → s ≠ "" →
      ∃ found, checkReferralHandler refDB (.stringValue "Jo") = .ok found found) :=
  ⟨(checkReferral_validation refDB .nullValue).1,
    (checkReferral_validation refDB (.stringValue "Jo")).2⟩

/-! ### Claim about the referral existence check -/

/-- C5, counterexample: `ILIKE` treats `%` in the referral name as a
wildcard, so the lookup succeeds on the name `"%"` although no recipient's
full name contains a percent sign. -/
theorem checkReferral_substring_counterexample :
    refDB.checkReferralExists "%" = true ∧
    ¬ ∃ a ∈ refDB.grantAwards,
        specContainsCI (awardRecipientFullName refDB a) "%" = true := by
  constructor
  · simp [DB.checkReferralExists, ilike, awardRecipientFullName, refDB,
      refAward, refUser, emptyDB, likeMatch]
  · decide

/-- C5 (amended).  For referral names free of the SQL LIKE metacharacters
`%`, `_` and `\`, the lookup returns true exactly when some award row's
recipient full name (first name, a space, last name — regardless of
disbursement state) contains the name as a substring, case-insensitively;
the check itself never writes. -/
theorem checkReferral_substring_spec (db : DB) (name : String)
    (h : ∀ c ∈ name.data, c ≠ '%' ∧ c ≠ '_' ∧ c ≠ '\\') :
    db.checkReferralExists name = true ↔
      ∃ a ∈ db.grantAwards,
        specContainsCI (awardRecipientFullName db a) name = true := by
  rw [checkReferralExists_iff]
  have e : ∀ hay, ilike hay ("%" ++ name ++ "%") = specContainsCI hay name :=
    fun hay => ilike_wrap_eq hay name h
  constructor
  · rintro ⟨a, ha, hm⟩
    exact ⟨a, ha, by rw [← e]; exact hm⟩
  · rintro ⟨a, ha, hm⟩
    exact ⟨a, ha, by rw [e]; exact hm⟩

theorem checkReferral_substring_spec_witness :
    (∀ c ∈ ("Jo" : String).data, c ≠ '%' ∧ c ≠ '_' ∧ c ≠ '\\') ∧
    (refDB.checkReferralExists "Jo" = true ↔
      ∃ a ∈ refDB.grantAwards,
        specContainsCI (awardRecipientFullName refDB a) "Jo" = true) :=
  ⟨by decide, checkReferral_substring_spec refDB "Jo" (by decide)⟩

end GlobalGrants
